import Mathlib

/-!
Verification development for the static-site build scripts of
thecharmedcardinal.com.  The JavaScript sources are shallowly embedded:
strings are lists of characters (`Str`), every `String.prototype.replace`
with a single-character global pattern becomes a character-wise rewriting,
the regular expressions used by the scripts (`/[^a-z0-9]+/g`,
`/listing\(\d+)/`, `/[^a-z0-9-]/gi`, `/^-+|-+$/g`) are implemented
directly on character lists, and the effectful parts (HTTP fetches, the
file system, `process.exit`) are threaded as explicit values.
-/

namespace CharmedCardinal

/-- Strings of the JavaScript sources are modelled as lists of characters. -/
abbrev Str := List Char

/-- Test whether `pat` occurs at the very start of `s` (character-wise). -/
def startsWith : Str → Str → Bool
  | [], _ => true
  | _ :: _, [] => false
  | p :: ps, c :: cs => p = c && startsWith ps cs

/-- Model of JavaScript `String.prototype.includes`: does `pat` occur as a
contiguous substring of the second argument? -/
def includes (pat : Str) : Str → Bool
  | [] => pat.isEmpty
  | c :: cs => startsWith pat (c :: cs) || includes pat cs

/-- Model of JavaScript `toLowerCase` restricted to ASCII letters, the only
characters the build scripts' keyword tests and slug alphabet depend on. -/
def toLowerChar (c : Char) : Char :=
  if 'A' ≤ c ∧ c ≤ 'Z' then Char.ofNat (c.toNat + 32) else c

/-- Model of `s.toLowerCase()` as used by `inferType` and
`slugFromTitleAndId` in scripts/build.js. -/
def toLowerAscii (s : Str) : Str := s.map toLowerChar

/-- Model of `String.prototype.replace(/x/g, rep)` for a single-character
pattern `x`: every occurrence of the character is rewritten to `rep`. -/
def replaceAllChar (x : Char) (rep : Str) (s : Str) : Str :=
  s.flatMap fun a => if a = x then rep else [a]

/-- Embedding of `escapeHtml` (scripts/build.js lines 98-104): the four
global replaces `&` to `&amp;`, `"` to `&quot;`, `<` to `&lt;`, `>` to
`&gt;`, applied in that order. -/
def escapeHtml (s : Str) : Str :=
  replaceAllChar '>' "&gt;".data
    (replaceAllChar '<' "&lt;".data
      (replaceAllChar '"' "&quot;".data
        (replaceAllChar '&' "&amp;".data s)))

/-- Character-wise description of `escapeHtml`: what one input character
contributes to the output. -/
def escapeChar (a : Char) : Str :=
  if a = '&' then "&amp;".data
  else if a = '"' then "&quot;".data
  else if a = '<' then "&lt;".data
  else if a = '>' then "&gt;".data
  else [a]

/-- Characters the regex class `[a-z0-9]` of `/[^a-z0-9]+/g` accepts. -/
def isLowerAlnum (c : Char) : Bool :=
  ('a' ≤ c && c ≤ 'z') || ('0' ≤ c && c ≤ '9')

/-- Model of `.replace(/[^a-z0-9]+/g, "-")`: every maximal run of characters
outside `[a-z0-9]` becomes a single dash.  The boolean argument records
whether the previous character already belonged to such a run. -/
def collapseNonAlnum : Bool → Str → Str
  | _, [] => []
  | inRun, c :: cs =>
    if isLowerAlnum c then c :: collapseNonAlnum false cs
    else if inRun then collapseNonAlnum true cs
    else '-' :: collapseNonAlnum true cs

/-- Model of `.replace(/^-+|-+$/g, "")`: drop every leading and trailing
dash. -/
def trimDashes (s : Str) : Str :=
  ((s.dropWhile fun c => c = '-').reverse.dropWhile fun c => c = '-').reverse

/-- Embedding of `slugFromTitleAndId` (scripts/build.js lines 148-154). -/
def slugFromTitleAndId (title id : Str) : Str :=
  let base := trimDashes (collapseNonAlnum false (toLowerAscii title))
  (if base = [] then "product".data else base) ++ "-".data ++ id

/-- Embedding of `inferType` (scripts/build.js lines 156-163). -/
def inferType (title description : Str) : Str :=
  let text := toLowerAscii (title ++ " ".data ++ description)
  if includes "pattern".data text || includes "seamless".data text then
    "digital-pattern".data
  else
    "garden-flag".data

/-- Embedding of `String(link).match(/listing\(\d+)/)` as used at
scripts/build.js lines 680-682: scan for the leftmost occurrence of the
text `listing/` followed by at least one digit and return the maximal run
of digits after it. -/
def extractListingId : Str → Option Str
  | [] => none
  | c :: cs =>
    if startsWith "listing/".data (c :: cs) then
      let ds := ((c :: cs).drop 8).takeWhile Char.isDigit
      if ds = [] then extractListingId cs else some ds
    else extractListingId cs

/-- Template text of `renderLayout` (scripts/build.js lines 178-242) up to
the first interpolation, the escaped page title inside `<title>`. -/
def layoutSeg0 : Str :=
  "<!doctype html>\n<html lang=\"en\">\n<head>\n  <meta charset=\"utf-8\" />\n  <title>".data

/-- Template text between the `<title>` interpolation and the escaped
description inside the description meta tag's quoted attribute. -/
def layoutSeg1 : Str :=
  "</title>\n  <meta name=\"description\" content=\"".data

/-- Template text between the description and the canonical link href. -/
def layoutSeg2 : Str :=
  "\" />\n  <meta name=\"viewport\" content=\"width=device-width, initial-scale=1\" />\n  <link rel=\"canonical\" href=\"".data

/-- Template text between the canonical href and the og:title content. -/
def layoutSeg3 : Str :=
  "\" />\n\n  <link rel=\"stylesheet\" href=\"/styles.css\" />\n  <link rel=\"icon\" type=\"image/png\" href=\"/assets/favicon.png\" />\n\n  <meta property=\"og:title\" content=\"".data

/-- Template text between og:title and og:description. -/
def layoutSeg4 : Str :=
  "\" />\n  <meta property=\"og:description\" content=\"".data

/-- Template text between og:description and og:url. -/
def layoutSeg5 : Str :=
  "\" />\n  <meta property=\"og:type\" content=\"website\" />\n  <meta property=\"og:url\" content=\"".data

/-- Template text between og:url and og:image. -/
def layoutSeg6 : Str :=
  "\" />\n  <meta property=\"og:image\" content=\"".data

/-- Template text between og:image and twitter:title. -/
def layoutSeg7 : Str :=
  "\" />\n\n  <meta name=\"twitter:card\" content=\"summary_large_image\" />\n  <meta name=\"twitter:title\" content=\"".data

/-- Template text between twitter:title and twitter:description. -/
def layoutSeg8 : Str :=
  "\" />\n  <meta name=\"twitter:description\" content=\"".data

/-- Template text between twitter:description and twitter:image. -/
def layoutSeg9 : Str :=
  "\" />\n  <meta name=\"twitter:image\" content=\"".data

/-- Template text between twitter:image and the extraHead interpolation. -/
def layoutSeg10 : Str :=
  "\" />\n\n  ".data

/-- Template text from extraHead to the bodyHtml interpolation: the end of
the head element and the fixed site header shell. -/
def layoutSeg11 : Str :=
  "\n</head>\n<body>\n  <header class=\"site-header\">\n    <div class=\"container header-inner\">\n      <a class=\"brand\" href=\"/\">\n        <span class=\"brand-mark\">üïäÔ∏è</span>\n        <span class=\"brand-text\">\n          <span class=\"brand-name\">The Charmed Cardinal</span>\n          <span class=\"brand-tagline\">Garden Flags &amp; Seamless Patterns</span>\n        </span>\n      </a>\n      <nav class=\"main-nav\">\n        <a href=\"/\">Home</a>\n        <a href=\"/shop.html\">Shop</a>\n        <a href=\"/about.html\">About</a>\n        <a href=\"/blog/\">Blog</a>\n        <a href=\"/index.html#contact\">Contact</a>\n      </nav>\n    </div>\n  </header>\n\n  <main>\n".data

/-- Template text after the bodyHtml interpolation: the fixed footer shell
and the end of the document. -/
def layoutSeg12 : Str :=
  "\n  </main>\n\n  <footer class=\"site-footer\">\n    <div class=\"container footer-inner\">\n      <p>&copy; <span id=\"year\"></span> The Charmed Cardinal. All rights reserved.</p>\n      <nav class=\"footer-nav\">\n        <a href=\"/\">Home</a>\n        <a href=\"/shop.html\">Shop</a>\n        <a href=\"/about.html\">About</a>\n        <a href=\"/blog/\">Blog</a>\n      </nav>\n    </div>\n    <script>\n      document.getElementById(\"year\").textContent = new Date().getFullYear();\n    </script>\n  </footer>\n</body>\n</html>".data

/-- Embedding of `renderLayout` (scripts/build.js lines 167-243): the shared
page shell.  The title and description are passed through `escapeHtml`
before interpolation; canonical, bodyHtml, extraHead and ogImage are
interpolated as given, exactly as in the source template. -/
def renderLayout (title description canonical bodyHtml extraHead ogImage : Str) : Str :=
  let safeTitle := escapeHtml title
  let safeDesc := escapeHtml description
  layoutSeg0 ++ safeTitle ++ layoutSeg1 ++ safeDesc ++ layoutSeg2 ++ canonical ++
    layoutSeg3 ++ safeTitle ++ layoutSeg4 ++ safeDesc ++ layoutSeg5 ++ canonical ++
    layoutSeg6 ++ ogImage ++ layoutSeg7 ++ safeTitle ++ layoutSeg8 ++ safeDesc ++
    layoutSeg9 ++ ogImage ++ layoutSeg10 ++ extraHead ++ layoutSeg11 ++ bodyHtml ++
    layoutSeg12

/-- Product record as built by `fetchProductsFromRss` (scripts/build.js
lines 712-721): id, slug, title, plain-text description, outbound Etsy
link, inferred type, tags (always empty) and the discovered remote image
URL (nullable). -/
structure Product where
  id : Str
  slug : Str
  title : Str
  description : Str
  etsy : Str
  type : Str
  tags : List Str
  imageUrl : Option Str
deriving DecidableEq, Repr

/-- Site domain constant `DOMAIN` of scripts/build.js line 11. -/
def DOMAIN : Str := "https://thecharmedcardinal.com".data

/-- Record shape serialized to data/products.json (scripts/build.js lines
818-825): slug, title, type, description, etsy and tags of each product,
in the products' order. -/
structure JsonRecord where
  slug : Str
  title : Str
  type : Str
  description : Str
  etsy : Str
  tags : List Str
deriving DecidableEq, Repr

/-- Contents of data/products.json as a list of records (scripts/build.js
lines 815-829): `products.map` of the field selection. -/
def productsJsonRecords (products : List Product) : List JsonRecord :=
  products.map fun p => ⟨p.slug, p.title, p.type, p.description, p.etsy, p.tags⟩

/-- Absolute URL of a product page as interpolated into the sitemap
(scripts/build.js line 919). -/
def productLoc (p : Product) : Str :=
  DOMAIN ++ "/products/".data ++ p.slug ++ ".html".data

/-- Sitemap line appended per product (scripts/build.js lines 918-920). -/
def productUrlEntry (p : Product) : Str :=
  "  <url><loc>".data ++ productLoc p ++ "</loc></url>\n".data

/-- Static page list of the sitemap (scripts/build.js lines 903-910). -/
def staticPages : List Str :=
  ["".data, "shop.html".data, "about.html".data, "blog/".data,
   "products/garden-flags.html".data, "products/digital-patterns.html".data]

/-- Sitemap line appended per static page (scripts/build.js lines 915-917). -/
def staticUrlEntry (page : Str) : Str :=
  "  <url><loc>".data ++ DOMAIN ++ "/".data ++ page ++ "</loc></url>\n".data

/-- Opening text of sitemap.xml (scripts/build.js lines 912-914). -/
def sitemapHeader : Str :=
  "<?xml version=\"1.0\" encoding=\"UTF-8\"?>\n<urlset xmlns=\"http://www.sitemaps.org/schemas/sitemap/0.9\">\n".data

/-- Embedding of the sitemap construction (scripts/build.js lines 912-921):
string concatenation of the header, one entry per static page, one entry
per product in product order, and the closing tag. -/
def sitemapXml (products : List Product) : Str :=
  let s1 := staticPages.foldl (fun acc p => acc ++ staticUrlEntry p) sitemapHeader
  let s2 := products.foldl (fun acc p => acc ++ productUrlEntry p) s1
  s2 ++ "</urlset>\n".data

/-- Entry list of the sitemap: the `<url><loc>` lines in the order the
source appends them. -/
def sitemapEntries (products : List Product) : List Str :=
  staticPages.map staticUrlEntry ++ products.map productUrlEntry

/-- Output paths of the per-product page writes, in loop order
(scripts/build.js lines 833-848). -/
def pageWritePaths (products : List Product) : List Str :=
  products.map fun p => "products/".data ++ p.slug ++ ".html".data

/-- Control skeleton of the main build (scripts/build.js lines 797-931)
once the fetched product list is in hand: an empty list throws
`No products parsed from RSS` before any page is written; otherwise the
build writes data/products.json, one page per product, the two category
pages, shop, home, blog index and the sitemap, in that order. -/
def build (products : List Product) : Except Str (List Str) :=
  if products.length = 0 then Except.error "No products parsed from RSS".data
  else Except.ok
    ("data/products.json".data ::
      (pageWritePaths products ++
        ["products/garden-flags.html".data, "products/digital-patterns.html".data,
         "shop.html".data, "index.html".data, "blog/index.html".data,
         "sitemap.xml".data]))

/-- Exit code of the main script: the catch handler at scripts/build.js
lines 927-930 logs the failure and calls `process.exit(1)`; a completed
build falls off the end of the async function and the process exits 0. -/
def buildExitCode : Except Str (List Str) → Nat
  | Except.error _ => 1
  | Except.ok _ => 0

/-- Control skeleton of the RSS variant's build (src/unnamed/part_001
lines 522-687): an empty discovered-URL list throws `No listings in RSS`
before any artifact is written; otherwise products.json, the product
pages for the scraped slugs, both category pages, shop, home and the
sitemap are written. -/
def build001 (urls : List Str) (scrapedSlugs : List Str) : Except Str (List Str) :=
  if urls.length = 0 then Except.error "No listings in RSS".data
  else Except.ok
    ("data/products.json".data ::
      (scrapedSlugs.map (fun slug => "products/".data ++ slug ++ ".html".data) ++
        ["products/garden-flags.html".data, "products/digital-patterns.html".data,
         "shop.html".data, "index.html".data, "sitemap.xml".data]))

/-- Exit code of the RSS variant: its catch handler (src/unnamed/part_001
lines 684-686) only logs `BUILD FAILED` and never calls `process.exit`, so
the node process exits 0 on the failure path exactly as on success. -/
def exitCode001 : Except Str (List Str) → Nat
  | Except.error _ => 0
  | Except.ok _ => 0

/-- Extension candidates probed by `ensureProductImage`
(scripts/build.js line 732). -/
def possibleExts : List Str := ["jpg".data, "jpeg".data, "png".data, "webp".data]

/-- Characters the case-insensitive class `[a-z0-9-]` of
`/[^a-z0-9\-]/gi` (scripts/build.js line 731) accepts. -/
def isBaseChar (c : Char) : Bool :=
  ('a' ≤ c && c ≤ 'z') || ('A' ≤ c && c ≤ 'Z') || ('0' ≤ c && c ≤ '9') || c = '-'

/-- Embedding of `product.slug.replace(/[^a-z0-9\-]/gi, "-")`
(scripts/build.js line 731): each character outside `[a-zA-Z0-9-]`
becomes a dash. -/
def baseNameOf (slug : Str) : Str :=
  slug.map fun c => if isBaseChar c then c else '-'

/-- Destination path `path.join(ASSETS_PRODUCTS_DIR, baseName.ext)` of an
image file, relative to the project root. -/
def assetPath (baseName ext : Str) : Str :=
  "assets/products/".data ++ (baseName ++ ".".data ++ ext)

/-- Web path `/assets/products/baseName.ext` returned to the renderer
(scripts/build.js lines 741 and 767). -/
def webPathOf (baseName ext : Str) : Str :=
  "/assets/products/".data ++ (baseName ++ ".".data ++ ext)

/-- Result record `{ webPath, absUrl }` of `ensureProductImage`. -/
structure ImgInfo where
  webPath : Str
  absUrl : Str
deriving DecidableEq, Repr

/-- Extension guess of `ensureProductImage` (scripts/build.js lines
753-757): substring checks against the lower-cased remote URL, in the
source's order, defaulting to jpg. -/
def extFromUrl (u : Str) : Str :=
  let lower := toLowerAscii u
  if includes ".png".data lower then "png".data
  else if includes ".webp".data lower then "webp".data
  else if includes ".jpeg".data lower then "jpeg".data
  else "jpg".data

/-- Embedding of `ensureProductImage` (scripts/build.js lines 728-775).
The file system is the list `fs` of existing paths, `downloadOk` stands
for the outcome of the one `downloadBinary` call, and the middle
component of the result counts the network downloads the call issued.
First a cached file `baseName.ext` is looked for across `possibleExts`
and reused; with no cached file and no remote URL the result is null;
otherwise one download to `baseName.<guessed ext>` is issued, whose
success returns the new paths and whose failure returns null. -/
def ensureProductImage (fs : List Str) (downloadOk : Bool) (p : Product) :
    Option ImgInfo × Nat × List Str :=
  let baseName := baseNameOf p.slug
  match possibleExts.find? (fun ext => fs.contains (assetPath baseName ext)) with
  | some ext => (some ⟨webPathOf baseName ext, DOMAIN ++ webPathOf baseName ext⟩, 0, fs)
  | none =>
    match p.imageUrl with
    | none => (none, 0, fs)
    | some u =>
      let ext := extFromUrl u
      let dest := assetPath baseName ext
      if downloadOk then
        (some ⟨webPathOf baseName ext, DOMAIN ++ webPathOf baseName ext⟩, 1, dest :: fs)
      else (none, 1, fs)

/-- Product record of the part_000 variant (src/unnamed/part_000 lines
166-178). -/
structure Product0 where
  id : Str
  slug : Str
  title : Str
  description : Str
  price : Option Str
  etsy : Str
  type : Str
  tags : List Str
  imageRemote : Option Str
  imageWebPath : Option Str
  imageAbsUrl : Option Str
deriving DecidableEq, Repr

/-- Strict code-point lexicographic order on character lists, the model of
`a.title.localeCompare(b.title) < 0` for the ASCII titles the feed
carries. -/
def lexLt : Str → Str → Bool
  | [], [] => false
  | [], _ :: _ => true
  | _ :: _, [] => false
  | a :: as, b :: bs =>
    if a.toNat < b.toNat then true
    else if b.toNat < a.toNat then false
    else lexLt as bs

/-- Stable insertion of a product into a title-sorted list: the inserted
element goes after every element whose title is strictly smaller, and
after existing equal titles, matching a stable comparator sort. -/
def insertByTitle (x : Product0) : List Product0 → List Product0
  | [] => [x]
  | y :: ys =>
    if lexLt y.title x.title then y :: insertByTitle x ys
    else x :: y :: ys

/-- Model of `products.sort((a, b) => a.title.localeCompare(b.title))`
(src/unnamed/part_000 line 545): a stable sort of the product list by
title, realised as insertion sort. -/
def sortByTitle (ps : List Product0) : List Product0 :=
  ps.foldr insertByTitle []

/-- Control skeleton of the part_000 build (src/unnamed/part_000 lines
532-626) once the parsed product list is in hand: it has no zero-product
check — the list, empty or not, is sorted by title, serialized to
data/products.json and rendered into one page per product, the two
category pages, shop, home, blog index and the sitemap, ending with the
completion banner; its catch with `process.exit(1)` is reached only when a
step throws, which the skeleton never does. -/
def build000 (ps : List Product0) : Except Str (List Str) :=
  Except.ok
    ("data/products.json".data ::
      ((sortByTitle ps).map (fun p => "products/".data ++ p.slug ++ ".html".data) ++
        ["products/garden-flags.html".data, "products/digital-patterns.html".data,
         "shop.html".data, "index.html".data, "blog/index.html".data,
         "sitemap.xml".data]))

/-- Category assignment of the RSS map variant (src/unnamed/part_001 line
259): `item.title.includes("Flag") ? "Garden Flag" : "Digital Pattern"`,
a case-sensitive test on the raw feed title. -/
def categoryOf001 (title : Str) : Str :=
  if includes "Flag".data title then "Garden Flag".data
  else "Digital Pattern".data

/-- Decimal rendering of a natural number, structured on fuel so concrete
values evaluate by kernel reduction; models `Date.now().toString()`. -/
def natDecimalCore : Nat → Nat → Str → Str
  | 0, _, acc => acc
  | fuel + 1, n, acc =>
    let acc' := Char.ofNat (48 + n % 10) :: acc
    if n < 10 then acc' else natDecimalCore fuel (n / 10) acc'

/-- Decimal digit string of a natural number (`Date.now().toString()`). -/
def natDecimal (n : Nat) : Str := natDecimalCore (n + 1) n []

/-- Fields the JSON-LD scraper reads from a parsed structured-data block
(src/unnamed/part_001 lines 404-424); `image` is the first element of the
image array, or the image string, when one exists. -/
structure JsonLd where
  name : Option Str
  description : Option Str
  image : Option Str
deriving Repr

/-- Model of the JavaScript default `x || dflt`: an absent or empty string
falls back to the default. -/
def strOrDefault (o : Option Str) (dflt : Str) : Str :=
  match o with
  | some s => if s = [] then dflt else s
  | none => dflt

/-- Model of `.replace(/^-|-$/g, "")` (src/unnamed/part_001 line 429): one
leading and one trailing dash are dropped (the collapse step never leaves
a run of dashes, so at most one of each can occur). -/
def trimEdgeDash (s : Str) : Str :=
  let s1 := match s with
    | '-' :: rest => rest
    | other => other
  if s1.getLast? = some '-' then s1.dropLast else s1

/-- Product record of `scrapeListing` (src/unnamed/part_001 line 435). -/
structure Product001 where
  id : Str
  slug : Str
  title : Str
  description : Str
  image : Option Str
  type : Str
  etsy : Str
deriving DecidableEq, Repr

/-- Embedding of `scrapeListing` (src/unnamed/part_001 lines 404-436)
after the page fetch: the parsed JSON-LD block (or its absence) and the
clock value `now` are inputs.  A missing block throws `JSON-LD not
found`; otherwise the id is the numeric listing id of the URL, falling
back to `Date.now().toString()`, and the record is assembled from the
block's fields with the source's defaults, slug rule and `pattern`
keyword test. -/
def scrapeListing (listingUrl : Str) (jsonld : Option JsonLd) (now : Nat) :
    Except Str Product001 :=
  match jsonld with
  | none => Except.error "JSON-LD not found".data
  | some j =>
    let id := match extractListingId listingUrl with
      | some d => d
      | none => natDecimal now
    let title := strOrDefault j.name "Untitled Product".data
    let description :=
      strOrDefault j.description "Handmade item from The Charmed Cardinal.".data
    let slug := trimEdgeDash (collapseNonAlnum false (toLowerAscii title)) ++
      "-".data ++ id
    let txt := toLowerAscii (title ++ " ".data ++ description)
    let ptype :=
      if includes "pattern".data txt then "digital-pattern".data
      else "garden-flag".data
    Except.ok ⟨id, slug, title, description, j.image, ptype, listingUrl⟩

/-- Listing id of the main script's RSS loop (scripts/build.js lines
680-682): `idMatch ? idMatch[1] : ""` — the fallback is the empty
string. -/
def buildJsListingId (link : Str) : Str :=
  match extractListingId link with
  | some d => d
  | none => []

/-- Concrete garden-flag product used as witness input. -/
def wProductA : Product :=
  ⟨"12345".data, "spring-garden-flag-12345".data, "Spring Garden Flag".data,
    "Lovely flag".data, "https://www.etsy.com/listing/12345/spring".data,
    "garden-flag".data, [], some "https://i.etsystatic.com/a.jpg".data⟩

/-- Concrete digital-pattern product used as witness input. -/
def wProductB : Product :=
  ⟨"678".data, "rose-pattern-678".data, "Rose Pattern".data, "Seamless rose".data,
    "https://www.etsy.com/listing/678/rose".data, "digital-pattern".data, [], none⟩

/-- Concrete part_000 product with an alphabetically early title. -/
def wProduct0A : Product0 :=
  ⟨"1".data, "apple-flag-1".data, "Apple Flag".data, "d".data, none, "e".data,
    "garden-flag".data, [], none, none, none⟩

/-- Concrete part_000 product with an alphabetically late title. -/
def wProduct0Z : Product0 :=
  ⟨"2".data, "zinnia-flag-2".data, "Zinnia Flag".data, "d".data, none, "e".data,
    "garden-flag".data, [], none, none, none⟩

/-- Concrete image-materializer result used as witness input. -/
def wImgInfo : ImgInfo :=
  ⟨webPathOf (baseNameOf wProductA.slug) "jpg".data,
    DOMAIN ++ webPathOf (baseNameOf wProductA.slug) "jpg".data⟩

theorem replaceAllChar_append (x : Char) (rep a b : Str) :
    replaceAllChar x rep (a ++ b) = replaceAllChar x rep a ++ replaceAllChar x rep b := by
  simp [replaceAllChar, List.flatMap_append]

theorem escapeHtml_append (a b : Str) :
    escapeHtml (a ++ b) = escapeHtml a ++ escapeHtml b := by
  simp [escapeHtml, replaceAllChar_append]

theorem escapeHtml_single (c : Char) : escapeHtml [c] = escapeChar c := by
  by_cases h1 : c = '&'
  · subst h1; decide
  · by_cases h2 : c = '"'
    · subst h2; decide
    · by_cases h3 : c = '<'
      · subst h3; decide
      · by_cases h4 : c = '>'
        · subst h4; decide
        · simp [escapeHtml, replaceAllChar, escapeChar, h1, h2, h3, h4]

theorem escapeHtml_eq_flatMap (s : Str) : escapeHtml s = s.flatMap escapeChar := by
  induction s with
  | nil => decide
  | cons c cs ih =>
    have : (c :: cs) = [c] ++ cs := rfl
    rw [this, escapeHtml_append, escapeHtml_single, ih]
    simp [List.flatMap_cons]

theorem mem_escapeChar (ch a : Char) (h : ch ∈ escapeChar a) :
    ch ≠ '<' ∧ ch ≠ '>' ∧ ch ≠ '"' := by
  by_cases h1 : a = '&'
  · subst h1
    have e : escapeChar '&' = ['&', 'a', 'm', 'p', ';'] := by decide
    rw [e] at h
    simp at h
    rcases h with rfl | rfl | rfl | rfl | rfl <;> decide
  · by_cases h2 : a = '"'
    · subst h2
      have e : escapeChar '"' = ['&', 'q', 'u', 'o', 't', ';'] := by decide
      rw [e] at h
      simp at h
      rcases h with rfl | rfl | rfl | rfl | rfl | rfl <;> decide
    · by_cases h3 : a = '<'
      · subst h3
        have e : escapeChar '<' = ['&', 'l', 't', ';'] := by decide
        rw [e] at h
        simp at h
        rcases h with rfl | rfl | rfl | rfl <;> decide
      · by_cases h4 : a = '>'
        · subst h4
          have e : escapeChar '>' = ['&', 'g', 't', ';'] := by decide
          rw [e] at h
          simp at h
          rcases h with rfl | rfl | rfl | rfl <;> decide
        · have e : escapeChar a = [a] := by simp [escapeChar, h1, h2, h3, h4]
          rw [e] at h
          simp at h
          subst h
          exact ⟨h3, h4, h2⟩

theorem mem_escapeHtml (s : Str) (ch : Char) (h : ch ∈ escapeHtml s) :
    ch ≠ '<' ∧ ch ≠ '>' ∧ ch ≠ '"' := by
  rw [escapeHtml_eq_flatMap] at h
  rcases List.mem_flatMap.mp h with ⟨a, _, hm⟩
  exact mem_escapeChar ch a hm

/-- C1: for every input string, `escapeHtml` rewrites each occurrence of
`&`, `"`, `<`, `>` to `&amp;`, `&quot;`, `&lt;`, `&gt;` character by
character and its output contains no raw `<`, `>` or `"`; in the shared
layout every page renders the title only through `escapeHtml`, inside the
`<title>` element, and renders the escaped description inside a
double-quoted `content` attribute, which the quote-free escaped text
cannot break. -/
theorem escapeHtml_escapes_and_layout_attributes_survive (t d c b e o : Str) :
    escapeHtml t = t.flatMap escapeChar
    ∧ (∀ ch ∈ escapeHtml t, ch ≠ '<' ∧ ch ≠ '>' ∧ ch ≠ '"')
    ∧ (∀ ch ∈ escapeHtml d, ch ≠ '<' ∧ ch ≠ '>' ∧ ch ≠ '"')
    ∧ (∃ u v, renderLayout t d c b e o =
        u ++ ("<title>".data ++ escapeHtml t ++ "</title>".data) ++ v)
    ∧ (∃ u v, renderLayout t d c b e o =
        u ++ ("content=\"".data ++ escapeHtml d ++ "\" />".data) ++ v) := by
  refine ⟨escapeHtml_eq_flatMap t, fun ch hm => mem_escapeHtml t ch hm,
    fun ch hm => mem_escapeHtml d ch hm, ?_, ?_⟩
  · refine ⟨"<!doctype html>\n<html lang=\"en\">\n<head>\n  <meta charset=\"utf-8\" />\n  ".data,
      "\n  <meta name=\"description\" content=\"".data ++ escapeHtml d ++ layoutSeg2 ++ c ++
        layoutSeg3 ++ escapeHtml t ++ layoutSeg4 ++ escapeHtml d ++ layoutSeg5 ++ c ++
        layoutSeg6 ++ o ++ layoutSeg7 ++ escapeHtml t ++ layoutSeg8 ++ escapeHtml d ++
        layoutSeg9 ++ o ++ layoutSeg10 ++ e ++ layoutSeg11 ++ b ++ layoutSeg12, ?_⟩
    have h0 : layoutSeg0 =
        "<!doctype html>\n<html lang=\"en\">\n<head>\n  <meta charset=\"utf-8\" />\n  ".data ++
          "<title>".data := by decide
    have h1 : layoutSeg1 =
        "</title>".data ++ "\n  <meta name=\"description\" content=\"".data := by decide
    simp only [renderLayout, h0, h1, List.append_assoc]
  · refine ⟨layoutSeg0 ++ escapeHtml t ++ "</title>\n  <meta name=\"description\" ".data,
      "\n  <meta name=\"viewport\" content=\"width=device-width, initial-scale=1\" />\n  <link rel=\"canonical\" href=\"".data ++
        c ++ layoutSeg3 ++ escapeHtml t ++ layoutSeg4 ++ escapeHtml d ++ layoutSeg5 ++ c ++
        layoutSeg6 ++ o ++ layoutSeg7 ++ escapeHtml t ++ layoutSeg8 ++ escapeHtml d ++
        layoutSeg9 ++ o ++ layoutSeg10 ++ e ++ layoutSeg11 ++ b ++ layoutSeg12, ?_⟩
    have h1 : layoutSeg1 =
        "</title>\n  <meta name=\"description\" ".data ++ "content=\"".data := by decide
    have h2 : layoutSeg2 =
        "\" />".data ++
          "\n  <meta name=\"viewport\" content=\"width=device-width, initial-scale=1\" />\n  <link rel=\"canonical\" href=\"".data := by
      decide
    simp only [renderLayout, h1, h2, List.append_assoc]

/-- C2 (amended): in scripts/build.js the inferred type is always one of
garden-flag and digital-pattern; it is digital-pattern exactly when the
lower-cased title-plus-description text contains `pattern` or `seamless`,
and garden-flag in every other case. -/
theorem inferType_classification (t d : Str) :
    (inferType t d = "garden-flag".data ∨ inferType t d = "digital-pattern".data)
    ∧ (inferType t d = "digital-pattern".data ↔
        (includes "pattern".data (toLowerAscii (t ++ " ".data ++ d)) = true ∨
          includes "seamless".data (toLowerAscii (t ++ " ".data ++ d)) = true))
    ∧ (inferType t d = "garden-flag".data ↔
        ¬(includes "pattern".data (toLowerAscii (t ++ " ".data ++ d)) = true ∨
          includes "seamless".data (toLowerAscii (t ++ " ".data ++ d)) = true)) := by
  cases h1 : includes "pattern".data (toLowerAscii (t ++ " ".data ++ d)) <;>
    cases h2 : includes "seamless".data (toLowerAscii (t ++ " ".data ++ d)) <;>
      (simp only [inferType]; rw [h1, h2]; decide)

/-- C2 counterexample: the RSS map variant (src/unnamed/part_001 line 259)
classifies a product whose title and description contain neither `pattern`
nor `seamless` (nor `Flag`) into the pattern bucket, `Digital Pattern`,
instead of defaulting to garden-flag, and that value is not even one of the
two enum slugs. -/
theorem categoryOf001_defaults_to_pattern_bucket :
    categoryOf001 "Cozy Tote Bag by TheCharmedCardinal".data = "Digital Pattern".data
    ∧ includes "pattern".data
        (toLowerAscii ("Cozy Tote Bag by TheCharmedCardinal".data ++ " ".data ++
          "A charming cotton tote".data)) = false
    ∧ includes "seamless".data
        (toLowerAscii ("Cozy Tote Bag by TheCharmedCardinal".data ++ " ".data ++
          "A charming cotton tote".data)) = false
    ∧ "Digital Pattern".data ≠ "garden-flag".data
    ∧ "Digital Pattern".data ≠ "digital-pattern".data := by
  decide

theorem mem_collapseNonAlnum (s : Str) (b : Bool) (c : Char)
    (h : c ∈ collapseNonAlnum b s) : isLowerAlnum c = true ∨ c = '-' := by
  induction s generalizing b with
  | nil => simp [collapseNonAlnum] at h
  | cons a as ih =>
    by_cases ha : isLowerAlnum a = true
    · rw [collapseNonAlnum, if_pos ha] at h
      rcases List.mem_cons.mp h with rfl | h'
      · exact Or.inl ha
      · exact ih false h'
    · rw [collapseNonAlnum, if_neg ha] at h
      cases b with
      | true => simpa using ih true (by simpa using h)
      | false =>
        simp only [Bool.false_eq_true, if_false] at h
        rcases List.mem_cons.mp h with rfl | h'
        · exact Or.inr rfl
        · exact ih true h'

theorem mem_trimDashes (s : Str) (c : Char) (h : c ∈ trimDashes s) : c ∈ s := by
  unfold trimDashes at h
  have h1 := List.mem_reverse.mp h
  have h2 := (List.dropWhile_sublist (fun x => decide (x = '-'))).mem h1
  have h3 := List.mem_reverse.mp h2
  exact (List.dropWhile_sublist (fun x => decide (x = '-'))).mem h3

theorem extractListingId_digits (url ds : Str) (h : extractListingId url = some ds) :
    ds ≠ [] ∧ ∀ c ∈ ds, c.isDigit = true := by
  induction url with
  | nil => simp [extractListingId] at h
  | cons a as ih =>
    rw [extractListingId] at h
    by_cases hs : startsWith "listing/".data (a :: as) = true
    · rw [if_pos hs] at h
      by_cases hd : ((a :: as).drop 8).takeWhile Char.isDigit = []
      · rw [if_pos hd] at h
        exact ih h
      · rw [if_neg hd] at h
        cases h
        exact ⟨hd, fun c hc => List.mem_takeWhile_imp hc⟩
    · rw [if_neg hs] at h
      exact ih h

/-- C3: for every discovered listing URL that carries a numeric listing id
and any scraped title, the derived slug is non-empty, consists only of
characters from `[a-z0-9-]` (in particular it is entirely lower-case), and
ends with the numeric id extracted from the URL. -/
theorem slugFromTitleAndId_wellformed (url title id : Str)
    (h : extractListingId url = some id) :
    slugFromTitleAndId title id ≠ []
    ∧ (∀ c ∈ slugFromTitleAndId title id,
        ('a' ≤ c ∧ c ≤ 'z') ∨ ('0' ≤ c ∧ c ≤ '9') ∨ c = '-')
    ∧ ∃ stem, slugFromTitleAndId title id = stem ++ id := by
  obtain ⟨-, hdig⟩ := extractListingId_digits url id h
  refine ⟨?_, ?_, ?_⟩
  · simp [slugFromTitleAndId]
  · intro c hc
    simp only [slugFromTitleAndId, List.append_assoc, List.mem_append] at hc
    rcases hc with hc | hc | hc
    · by_cases hb : trimDashes (collapseNonAlnum false (toLowerAscii title)) = []
      · rw [if_pos hb] at hc
        have : ∀ x ∈ "product".data,
            ('a' ≤ x ∧ x ≤ 'z') ∨ ('0' ≤ x ∧ x ≤ '9') ∨ x = '-' := by decide
        exact this c hc
      · rw [if_neg hb] at hc
        have h2 := mem_collapseNonAlnum (toLowerAscii title) false c
          (mem_trimDashes _ c hc)
        rcases h2 with h2 | h2
        · simp only [isLowerAlnum, Bool.or_eq_true, Bool.and_eq_true,
            decide_eq_true_eq] at h2
          rcases h2 with h2 | h2
          · exact Or.inl h2
          · exact Or.inr (Or.inl h2)
        · exact Or.inr (Or.inr h2)
    · simp at hc
      subst hc
      exact Or.inr (Or.inr rfl)
    · have hd := hdig c hc
      rw [Char.isDigit] at hd
      simp only [Bool.and_eq_true, decide_eq_true_eq] at hd
      exact Or.inr (Or.inl hd)
  · exact ⟨(if trimDashes (collapseNonAlnum false (toLowerAscii title)) = [] then
      "product".data else trimDashes (collapseNonAlnum false (toLowerAscii title))) ++
        "-".data, by simp [slugFromTitleAndId, List.append_assoc]⟩

/-- C3 witness: a concrete listing URL and title satisfy the hypothesis and
the conclusion of the slug well-formedness theorem. -/
theorem slugFromTitleAndId_wellformed_witness :
    extractListingId "https://www.etsy.com/listing/12345/spring-garden-flag".data =
      some "12345".data
    ∧ (slugFromTitleAndId "Spring Garden Flag".data "12345".data ≠ []
      ∧ (∀ c ∈ slugFromTitleAndId "Spring Garden Flag".data "12345".data,
          ('a' ≤ c ∧ c ≤ 'z') ∨ ('0' ≤ c ∧ c ≤ '9') ∨ c = '-')
      ∧ ∃ stem, slugFromTitleAndId "Spring Garden Flag".data "12345".data =
          stem ++ "12345".data) :=
  ⟨by decide,
    slugFromTitleAndId_wellformed
      "https://www.etsy.com/listing/12345/spring-garden-flag".data
      "Spring Garden Flag".data "12345".data (by decide)⟩

theorem foldl_append_eq {α : Type} (g : α → Str) (l : List α) (init : Str) :
    l.foldl (fun acc x => acc ++ g x) init = init ++ (l.map g).flatten := by
  induction l generalizing init with
  | nil => simp
  | cons x xs ih => simp [ih, List.append_assoc]

theorem sitemapXml_decomposition (ps : List Product) :
    sitemapXml ps =
      sitemapHeader ++ (sitemapEntries ps).flatten ++ "</urlset>\n".data := by
  simp only [sitemapXml, sitemapEntries, foldl_append_eq, List.map_append,
    List.flatten_append, List.append_assoc]

theorem productUrlEntry_inj (a b : Product)
    (h : productUrlEntry a = productUrlEntry b) : a.slug = b.slug := by
  simp only [productUrlEntry, productLoc, List.append_assoc] at h
  have h1 := List.append_cancel_left h
  have h2 := List.append_cancel_left h1
  have h3 := List.append_cancel_left h2
  exact List.append_cancel_right h3

theorem count_eq_one_of_nodup_mem (s : Str) (l : List Str) (hnd : l.Nodup)
    (h : s ∈ l) : l.count s = 1 := by
  induction l with
  | nil => simp at h
  | cons a as ih =>
    rcases List.nodup_cons.mp hnd with ⟨hna, hnd'⟩
    rcases List.mem_cons.mp h with rfl | hmem
    · have hz : as.count s = 0 := List.count_eq_zero.mpr hna
      simp [List.count_cons, hz]
    · have hne : ¬ a = s := fun he => hna (he ▸ hmem)
      have := ih hnd' hmem
      simp [List.count_cons, this, Ne.symm hne]

theorem count_map_productUrlEntry (p : Product) (l : List Product) :
    (l.map productUrlEntry).count (productUrlEntry p) =
      (l.map fun q => q.slug).count p.slug := by
  induction l with
  | nil => rfl
  | cons q qs ih =>
    simp only [List.map_cons, List.count_cons, ih]
    congr 1
    by_cases hqp : q.slug = p.slug
    · have he : productUrlEntry q = productUrlEntry p := by
        simp [productUrlEntry, productLoc, hqp]
      simp [he, hqp]
    · have he : ¬ productUrlEntry q = productUrlEntry p := fun hh =>
        hqp (productUrlEntry_inj q p hh)
      simp [he, hqp]

/-- C4: the sitemap is the header, one `<url><loc>` line per static page,
one `<url><loc>` line per product in product order, and the closing tag;
the product lines are in one-to-one positional correspondence with the
records written to data/products.json, the i-th line holding exactly the
i-th record's slug under `<DOMAIN>/products/<slug>.html`; and whenever the
slugs are pairwise distinct (which build-produced slugs, ending in the
numeric id, are — they can also never coincide with the six static
entries), each product has exactly one `<url><loc>` entry in the whole
sitemap. -/
theorem sitemap_one_entry_per_product (ps : List Product)
    (hnd : (ps.map fun p => p.slug).Nodup)
    (hstatic : ∀ p ∈ ps, productUrlEntry p ∉ staticPages.map staticUrlEntry) :
    sitemapXml ps = sitemapHeader ++ (sitemapEntries ps).flatten ++ "</urlset>\n".data
    ∧ (productsJsonRecords ps).length = (ps.map productUrlEntry).length
    ∧ (∀ i (h1 : i < (ps.map productUrlEntry).length)
        (h2 : i < (productsJsonRecords ps).length),
        (ps.map productUrlEntry).get ⟨i, h1⟩ =
          "  <url><loc>".data ++ DOMAIN ++ "/products/".data ++
            ((productsJsonRecords ps).get ⟨i, h2⟩).slug ++ ".html</loc></url>\n".data)
    ∧ ∀ p ∈ ps, (sitemapEntries ps).count (productUrlEntry p) = 1 := by
  refine ⟨sitemapXml_decomposition ps, by simp [productsJsonRecords], ?_, ?_⟩
  · intro i h1 h2
    have hmerge : (".html</loc></url>\n".data : Str) =
        ".html".data ++ "</loc></url>\n".data := by decide
    simp only [List.get_eq_getElem, List.getElem_map, productsJsonRecords]
    simp [productUrlEntry, productLoc, hmerge, List.append_assoc]
  · intro p hp
    have hz : (staticPages.map staticUrlEntry).count (productUrlEntry p) = 0 :=
      List.count_eq_zero.mpr (hstatic p hp)
    have h1 : (ps.map fun q => q.slug).count p.slug = 1 :=
      count_eq_one_of_nodup_mem p.slug _ hnd (List.mem_map_of_mem _ hp)
    simp only [sitemapEntries, List.count_append, hz,
      count_map_productUrlEntry, h1]

/-- C4 witness: a two-product list with distinct slugs satisfies both
hypotheses and the conclusion of the sitemap correspondence theorem. -/
theorem sitemap_one_entry_per_product_witness :
    (([wProductA, wProductB].map fun p => p.slug).Nodup
      ∧ ∀ p ∈ [wProductA, wProductB],
          productUrlEntry p ∉ staticPages.map staticUrlEntry)
    ∧ (sitemapXml [wProductA, wProductB] =
        sitemapHeader ++ (sitemapEntries [wProductA, wProductB]).flatten ++
          "</urlset>\n".data
      ∧ (productsJsonRecords [wProductA, wProductB]).length =
          ([wProductA, wProductB].map productUrlEntry).length
      ∧ (∀ i (h1 : i < ([wProductA, wProductB].map productUrlEntry).length)
          (h2 : i < (productsJsonRecords [wProductA, wProductB]).length),
          ([wProductA, wProductB].map productUrlEntry).get ⟨i, h1⟩ =
            "  <url><loc>".data ++ DOMAIN ++ "/products/".data ++
              ((productsJsonRecords [wProductA, wProductB]).get ⟨i, h2⟩).slug ++
              ".html</loc></url>\n".data)
      ∧ ∀ p ∈ [wProductA, wProductB],
          (sitemapEntries [wProductA, wProductB]).count (productUrlEntry p) = 1) :=
  ⟨⟨by decide, by decide⟩,
    sitemap_one_entry_per_product [wProductA, wProductB] (by decide) (by decide)⟩

theorem find?_unique {α : Type} (p : α → Bool) (l : List α) (a : α) (ha : a ∈ l)
    (hpa : p a = true) (hother : ∀ x ∈ l, x ≠ a → p x = false) :
    l.find? p = some a := by
  induction l with
  | nil => simp at ha
  | cons x xs ih =>
    by_cases hx : p x = true
    · have hxa : x = a := by
        by_contra hne
        rw [hother x (List.mem_cons_self x xs) hne] at hx
        exact absurd hx (by decide)
      subst hxa
      simp [List.find?, hx]
    · have hxa : ¬ x = a := fun he => hx (he ▸ hpa)
      have hmem : a ∈ xs := by
        rcases List.mem_cons.mp ha with rfl | hm
        · exact absurd rfl hxa
        · exact hm
      rw [List.find?, Bool.eq_false_iff.mpr hx]
      exact ih hmem fun y hy hne => hother y (List.mem_cons_of_mem x hy) hne

theorem extFromUrl_mem (u : Str) : extFromUrl u ∈ possibleExts := by
  simp only [extFromUrl]
  split_ifs <;> decide

theorem assetPath_inj (b e1 e2 : Str) (h : assetPath b e1 = assetPath b e2) :
    e1 = e2 := by
  simp only [assetPath, List.append_assoc] at h
  exact List.append_cancel_left (List.append_cancel_left (List.append_cancel_left h))

/-- C5: with no cached file and a remote image URL present, the first run of
`ensureProductImage` issues exactly one download, writes the destination
file, and returns the derived web path and absolute URL; a second run on
the resulting file system issues no download and returns the same web path
and absolute URL, leaving the file system unchanged. -/
theorem ensureProductImage_idempotent (fs : List Str) (p : Product) (u : Str)
    (hu : p.imageUrl = some u)
    (hmiss : ∀ ext ∈ possibleExts,
      fs.contains (assetPath (baseNameOf p.slug) ext) = false) :
    ensureProductImage fs true p =
      (some ⟨webPathOf (baseNameOf p.slug) (extFromUrl u),
        DOMAIN ++ webPathOf (baseNameOf p.slug) (extFromUrl u)⟩, 1,
        assetPath (baseNameOf p.slug) (extFromUrl u) :: fs)
    ∧ ensureProductImage (assetPath (baseNameOf p.slug) (extFromUrl u) :: fs) true p =
      (some ⟨webPathOf (baseNameOf p.slug) (extFromUrl u),
        DOMAIN ++ webPathOf (baseNameOf p.slug) (extFromUrl u)⟩, 0,
        assetPath (baseNameOf p.slug) (extFromUrl u) :: fs) := by
  have hnone : possibleExts.find?
      (fun ext => fs.contains (assetPath (baseNameOf p.slug) ext)) = none := by
    refine List.find?_eq_none.mpr fun x hx hpx => ?_
    rw [hmiss x hx] at hpx
    exact absurd hpx (by decide)
  constructor
  · simp only [ensureProductImage, hnone, hu]
    simp
  · have hsome : possibleExts.find?
        (fun ext => (assetPath (baseNameOf p.slug) (extFromUrl u) :: fs).contains
          (assetPath (baseNameOf p.slug) ext)) = some (extFromUrl u) := by
      refine find?_unique _ _ _ (extFromUrl_mem u) ?_ ?_
      · simp [List.contains_cons]
      · intro x hx hne
        have h1 : (assetPath (baseNameOf p.slug) x ==
            assetPath (baseNameOf p.slug) (extFromUrl u)) = false := by
          refine beq_eq_false_iff_ne.mpr fun he => hne ?_
          exact assetPath_inj (baseNameOf p.slug) x (extFromUrl u) he
        have hnotin : assetPath (baseNameOf p.slug) x ∉ fs := by
          have := hmiss x hx
          simpa using this
        simp [List.contains_cons, h1]
        exact ⟨fun he => hne (assetPath_inj (baseNameOf p.slug) x (extFromUrl u) he),
          hnotin⟩
    simp only [ensureProductImage, hsome]

/-- C5 witness: the second-run equation of the idempotence theorem at a
concrete product, with the first-run download already materialized. -/
theorem ensureProductImage_idempotent_witness :
    ensureProductImage
        (assetPath (baseNameOf wProductA.slug)
          (extFromUrl "https://i.etsystatic.com/a.jpg".data) :: []) true wProductA =
      (some ⟨webPathOf (baseNameOf wProductA.slug)
          (extFromUrl "https://i.etsystatic.com/a.jpg".data),
        DOMAIN ++ webPathOf (baseNameOf wProductA.slug)
          (extFromUrl "https://i.etsystatic.com/a.jpg".data)⟩, 0,
        assetPath (baseNameOf wProductA.slug)
          (extFromUrl "https://i.etsystatic.com/a.jpg".data) :: []) :=
  (ensureProductImage_idempotent [] wProductA "https://i.etsystatic.com/a.jpg".data
    rfl (by decide)).2

/-- C9: when a cached file exists for some extension, `ensureProductImage`
returns that cached path, issues no download, leaves the file system
unchanged, and its result does not depend on the product's remote image
URL or on the download outcome: two invocations differing only in
`imageUrl` (including null) return identical results, so a changed remote
image under an unchanged slug is never re-fetched. -/
theorem ensureProductImage_cached_ignores_remote (fs : List Str) (ok : Bool)
    (p : Product) (e0 : Str)
    (hfind : possibleExts.find?
      (fun ext => fs.contains (assetPath (baseNameOf p.slug) ext)) = some e0) :
    ensureProductImage fs ok p =
      (some ⟨webPathOf (baseNameOf p.slug) e0,
        DOMAIN ++ webPathOf (baseNameOf p.slug) e0⟩, 0, fs)
    ∧ ∀ u1 u2 ok1 ok2,
        ensureProductImage fs ok1 { p with imageUrl := u1 } =
          ensureProductImage fs ok2 { p with imageUrl := u2 } := by
  constructor
  · simp only [ensureProductImage, hfind]
  · intro u1 u2 ok1 ok2
    simp only [ensureProductImage, hfind]

/-- C9 witness: a concrete cached file makes the materializer return the
cached path with zero downloads even with a failing download oracle. -/
theorem ensureProductImage_cached_ignores_remote_witness :
    ensureProductImage [assetPath (baseNameOf wProductB.slug) "png".data] false
        wProductB =
      (some ⟨webPathOf (baseNameOf wProductB.slug) "png".data,
        DOMAIN ++ webPathOf (baseNameOf wProductB.slug) "png".data⟩, 0,
        [assetPath (baseNameOf wProductB.slug) "png".data]) :=
  (ensureProductImage_cached_ignores_remote
    [assetPath (baseNameOf wProductB.slug) "png".data] false wProductB "png".data
    (by decide)).1

theorem mem_baseNameOf (s : Str) (c : Char) (h : c ∈ baseNameOf s) :
    isBaseChar c = true := by
  simp only [baseNameOf, List.mem_map] at h
  rcases h with ⟨a, -, ha⟩
  by_cases hba : isBaseChar a = true
  · rw [if_pos hba] at ha
    exact ha ▸ hba
  · rw [if_neg hba] at ha
    rw [← ha]
    decide

theorem isBaseChar_no_separator (c : Char) (h : isBaseChar c = true) :
    c ≠ '/' ∧ c ≠ '\\' ∧ c ≠ '.' := by
  refine ⟨fun he => ?_, fun he => ?_, fun he => ?_⟩ <;>
    (subst he; exact absurd h (by decide))

/-- C10: every result `ensureProductImage` returns has web path
`/assets/products/<base>.<ext>` where `<base>` is the slug with each
character outside `[a-zA-Z0-9-]` replaced by a dash and `<ext>` is one of
jpg, jpeg, png, webp; the file name contains no path separator and exactly
one dot, hence no `..` segment, so the file always lies directly inside
the assets/products directory. -/
theorem ensureProductImage_filename_safe (fs : List Str) (ok : Bool) (p : Product)
    (info : ImgInfo) (h : (ensureProductImage fs ok p).1 = some info) :
    ∃ ext, ext ∈ possibleExts
      ∧ info.webPath =
          "/assets/products/".data ++ (baseNameOf p.slug ++ ".".data ++ ext)
      ∧ baseNameOf p.slug = p.slug.map (fun c => if isBaseChar c then c else '-')
      ∧ (∀ c ∈ baseNameOf p.slug, isBaseChar c = true)
      ∧ (∀ c ∈ baseNameOf p.slug ++ ".".data ++ ext, c ≠ '/' ∧ c ≠ '\\')
      ∧ (baseNameOf p.slug ++ ".".data ++ ext).count '.' = 1 := by
  have hbase : ∀ c ∈ baseNameOf p.slug, isBaseChar c = true := mem_baseNameOf p.slug
  have hcnt : (baseNameOf p.slug).count '.' = 0 :=
    List.count_eq_zero.mpr fun hm =>
      (isBaseChar_no_separator '.' (hbase '.' hm)).2.2 rfl
  have hexts : ∀ e ∈ possibleExts,
      e.count '.' = 0 ∧ ∀ c ∈ e, c ≠ '/' ∧ c ≠ '\\' := by decide
  have main : ∀ e ∈ possibleExts, info.webPath = webPathOf (baseNameOf p.slug) e →
      ∃ ext, ext ∈ possibleExts
        ∧ info.webPath =
            "/assets/products/".data ++ (baseNameOf p.slug ++ ".".data ++ ext)
        ∧ baseNameOf p.slug = p.slug.map (fun c => if isBaseChar c then c else '-')
        ∧ (∀ c ∈ baseNameOf p.slug, isBaseChar c = true)
        ∧ (∀ c ∈ baseNameOf p.slug ++ ".".data ++ ext, c ≠ '/' ∧ c ≠ '\\')
        ∧ (baseNameOf p.slug ++ ".".data ++ ext).count '.' = 1 := by
    intro e he hw
    refine ⟨e, he, hw, rfl, hbase, ?_, ?_⟩
    · intro c hc
      simp only [List.append_assoc, List.mem_append] at hc
      rcases hc with hc | hc | hc
      · have := isBaseChar_no_separator c (hbase c hc)
        exact ⟨this.1, this.2.1⟩
      · simp at hc
        subst hc
        exact ⟨by decide, by decide⟩
      · exact (hexts e he).2 c hc
    · simp only [List.append_assoc, List.count_append, hcnt, (hexts e he).1]
      decide
  cases hf : possibleExts.find?
      (fun ext => fs.contains (assetPath (baseNameOf p.slug) ext)) with
  | some e =>
    rw [ensureProductImage] at h
    rw [hf] at h
    simp only [Option.some.injEq] at h
    exact main e (List.mem_of_find?_eq_some hf) (by rw [← h])
  | none =>
    rw [ensureProductImage] at h
    rw [hf] at h
    cases hu : p.imageUrl with
    | none => rw [hu] at h; simp at h
    | some u =>
      rw [hu] at h
      cases ok with
      | false => simp at h
      | true =>
        simp only [if_true, Option.some.injEq] at h
        exact main (extFromUrl u) (extFromUrl_mem u) (by rw [← h])

/-- C10 witness: the file-name safety conclusion at a concrete product whose
image was just downloaded. -/
theorem ensureProductImage_filename_safe_witness :
    ∃ ext, ext ∈ possibleExts
      ∧ wImgInfo.webPath =
          "/assets/products/".data ++ (baseNameOf wProductA.slug ++ ".".data ++ ext)
      ∧ baseNameOf wProductA.slug =
          wProductA.slug.map (fun c => if isBaseChar c then c else '-')
      ∧ (∀ c ∈ baseNameOf wProductA.slug, isBaseChar c = true)
      ∧ (∀ c ∈ baseNameOf wProductA.slug ++ ".".data ++ ext, c ≠ '/' ∧ c ≠ '\\')
      ∧ (baseNameOf wProductA.slug ++ ".".data ++ ext).count '.' = 1 :=
  ensureProductImage_filename_safe [] true wProductA wImgInfo (by decide)

theorem insertByTitle_perm (x : Product0) (l : List Product0) :
    List.Perm (insertByTitle x l) (x :: l) := by
  induction l with
  | nil => exact List.Perm.refl _
  | cons y ys ih =>
    rw [insertByTitle]
    by_cases hlt : lexLt y.title x.title = true
    · rw [if_pos hlt]
      exact List.Perm.trans (ih.cons y) (List.Perm.swap x y ys)
    · rw [if_neg hlt]

theorem sortByTitle_perm (ps : List Product0) : List.Perm (sortByTitle ps) ps := by
  induction ps with
  | nil => exact List.Perm.refl _
  | cons p qs ih =>
    exact List.Perm.trans (insertByTitle_perm p (sortByTitle qs)) (ih.cons p)

/-- C6 (amended): in scripts/build.js the products.json records, the
per-product page writes and the sitemap product entries are all emitted in
the order the listings were discovered — the i-th artifact belongs to the
i-th discovered product — while the part_000 variant instead sorts the
product list by title before serializing and rendering, emitting a
title-sorted permutation of the discovery order. -/
theorem build_order_and_part000_sort (ps : List Product) :
    (productsJsonRecords ps).length = ps.length
    ∧ (∀ i (h1 : i < (productsJsonRecords ps).length) (h2 : i < ps.length),
        ((productsJsonRecords ps).get ⟨i, h1⟩).slug = (ps.get ⟨i, h2⟩).slug)
    ∧ (pageWritePaths ps).length = ps.length
    ∧ (∀ i (h1 : i < (pageWritePaths ps).length) (h2 : i < ps.length),
        (pageWritePaths ps).get ⟨i, h1⟩ =
          "products/".data ++ (ps.get ⟨i, h2⟩).slug ++ ".html".data)
    ∧ (ps.map productUrlEntry).length = ps.length
    ∧ (∀ i (h1 : i < (ps.map productUrlEntry).length) (h2 : i < ps.length),
        (ps.map productUrlEntry).get ⟨i, h1⟩ = productUrlEntry (ps.get ⟨i, h2⟩))
    ∧ ∀ qs : List Product0, List.Perm (sortByTitle qs) qs := by
  refine ⟨by simp [productsJsonRecords], ?_, by simp [pageWritePaths], ?_,
    by simp, ?_, sortByTitle_perm⟩ <;>
    intro i h1 h2 <;>
      simp [productsJsonRecords, pageWritePaths, List.get_eq_getElem,
        List.getElem_map]

/-- C6 counterexample: the part_000 variant's sort step reorders two
products discovered in the order Zinnia before Apple into Apple before
Zinnia, so serialization and rendering there do not follow discovery
order. -/
theorem part000_sort_reorders :
    sortByTitle [wProduct0Z, wProduct0A] = [wProduct0A, wProduct0Z]
    ∧ sortByTitle [wProduct0Z, wProduct0A] ≠ [wProduct0Z, wProduct0A] := by
  decide

/-- C7 (amended): in scripts/build.js an empty product list makes the build
throw `No products parsed from RSS` before any page is written and the
process exit with code 1, while a non-empty list produces the full ordered
write list and exit code 0; the part_001 variant's catch handler, however,
only logs the error, so that process exits 0 even when discovery fails;
and the part_000 variant has no zero-product check at all — its build
succeeds on every product list, the empty one included, rendering every
page and exiting 0 with the banner. -/
theorem build_exit_codes (ps : List Product) :
    (ps = [] →
      build ps = Except.error "No products parsed from RSS".data
      ∧ buildExitCode (build ps) = 1)
    ∧ (ps ≠ [] →
      ∃ writes, build ps = Except.ok writes
        ∧ buildExitCode (build ps) = 0
        ∧ writes.length = ps.length + 7
        ∧ writes = "data/products.json".data ::
            (pageWritePaths ps ++
              ["products/garden-flags.html".data,
               "products/digital-patterns.html".data, "shop.html".data,
               "index.html".data, "blog/index.html".data, "sitemap.xml".data]))
    ∧ (∀ urls scraped, exitCode001 (build001 urls scraped) = 0)
    ∧ (∀ qs : List Product0,
        ∃ writes, build000 qs = Except.ok writes
          ∧ buildExitCode (build000 qs) = 0)
    ∧ build000 [] = Except.ok
        ["data/products.json".data, "products/garden-flags.html".data,
         "products/digital-patterns.html".data, "shop.html".data,
         "index.html".data, "blog/index.html".data, "sitemap.xml".data] := by
  refine ⟨?_, ?_, ?_, fun qs => ⟨_, rfl, rfl⟩, rfl⟩
  · rintro rfl
    exact ⟨rfl, rfl⟩
  · intro hne
    have hlen : ¬ ps.length = 0 := fun h => hne (List.length_eq_zero.mp h)
    have hb : build ps = Except.ok ("data/products.json".data ::
        (pageWritePaths ps ++
          ["products/garden-flags.html".data, "products/digital-patterns.html".data,
           "shop.html".data, "index.html".data, "blog/index.html".data,
           "sitemap.xml".data])) := by
      rw [build, if_neg hlen]
    refine ⟨_, hb, by rw [hb]; rfl, ?_, rfl⟩
    simp [pageWritePaths]
  · intro urls scraped
    cases build001 urls scraped <;> rfl

/-- C7 counterexample: with an empty discovery result the part_001 variant
throws `No listings in RSS`, its catch handler swallows the error, and the
process exit code is 0, not a non-zero status. -/
theorem part001_exits_zero_on_failure :
    build001 [] [] = Except.error "No listings in RSS".data
    ∧ exitCode001 (build001 [] []) = 0 :=
  ⟨rfl, rfl⟩

theorem natDecimalCore_ne_nil (fuel : Nat) :
    ∀ (n : Nat) (acc : Str), acc ≠ [] → natDecimalCore fuel n acc ≠ [] := by
  induction fuel with
  | zero => intro n acc hacc; simpa [natDecimalCore] using hacc
  | succ f ih =>
    intro n acc _
    rw [natDecimalCore]
    by_cases hn : n < 10
    · simp [hn]
    · simp only [hn, if_false]
      exact ih (n / 10) _ (by simp)

theorem natDecimal_ne_nil (n : Nat) : natDecimal n ≠ [] := by
  rw [natDecimal, natDecimalCore]
  by_cases hn : n < 10
  · simp [hn]
  · simp only [hn, if_false]
    exact natDecimalCore_ne_nil n (n / 10) _ (by simp)

/-- C8 (amended): for a listing URL with no `/listing/<id>` match, the
part_001 scraper still produces a product record without failing, and the
identifier it uses is the timestamp `Date.now().toString()` — a non-empty
digit string — whereas the main script's fallback identifier is the empty
string (shown in the counterexample). -/
theorem scrapeListing_timestamp_id (url : Str) (j : JsonLd) (now : Nat)
    (h : extractListingId url = none) :
    ∃ p, scrapeListing url (some j) now = Except.ok p
      ∧ p.id = natDecimal now
      ∧ natDecimal now ≠ [] := by
  simp only [scrapeListing, h]
  exact ⟨_, rfl, rfl, natDecimal_ne_nil now⟩

/-- C8 witness: a shop URL without a listing id still yields a product
record whose id is the decimal timestamp. -/
theorem scrapeListing_timestamp_id_witness :
    extractListingId "https://www.etsy.com/shop/thecharmedcardinal".data = none
    ∧ ∃ p, scrapeListing "https://www.etsy.com/shop/thecharmedcardinal".data
          (some ⟨some "Rose Tote".data, none, none⟩) 1730000000000 = Except.ok p
        ∧ p.id = natDecimal 1730000000000
        ∧ natDecimal 1730000000000 ≠ [] :=
  ⟨by decide,
    scrapeListing_timestamp_id "https://www.etsy.com/shop/thecharmedcardinal".data
      ⟨some "Rose Tote".data, none, none⟩ 1730000000000 (by decide)⟩

/-- C8 counterexample: at a URL without the listing pattern the main
script's identifier is the empty string, which no timestamp rendering can
be, and the resulting slug ends in a bare dash. -/
theorem buildjs_id_fallback_is_empty :
    buildJsListingId "https://www.etsy.com/shop/thecharmedcardinal".data = []
    ∧ (∀ n : Nat, natDecimal n ≠ [])
    ∧ slugFromTitleAndId "Spring Garden Flag".data
        (buildJsListingId "https://www.etsy.com/shop/thecharmedcardinal".data) =
      "spring-garden-flag-".data :=
  ⟨by decide, natDecimal_ne_nil, by decide⟩

end CharmedCardinal
